import Mathlib

/-!
Shallow embedding of the payload-reconciliation core of the
PSD-Procedural-Logic-Engine-v4 repository.

Sources embedded here:
- src/store/ProceduralContext.tsx : reconcileTerminalState, updatePayload,
  seekHistory (the payload reconciler state machine and the store operations).
- src/hooks/usePsdResolver.ts : findLayerDeep, resolveLayer.
- src/components/RemapperNode.tsx : the scale/anchor placement computation and
  the transformLayers recursion (layout transform engine).

Modelling conventions:
- JavaScript optional values are Option.  JavaScript truthiness is modelled
  explicitly: an optional number is truthy when present and nonzero, an
  optional string when present and nonempty, an optional boolean when present
  and true, an optional object when present.  Arrays are always truthy.
- The or-operator on optionals (a || b) is modelled by dedicated helpers that
  return the first operand exactly when it is truthy.
- Numbers are modelled by Rat (the reconciler ids by Nat, since they come from
  Date.now()); statuses and layer kinds are the source's string literals.
-/

/-- Truthiness of a JS optional number holding a natural. -/
def natT (o : Option Nat) : Bool := o.getD 0 != 0

/-- Truthiness of a JS optional string. -/
def strT (o : Option String) : Bool := o.getD "" != ""

/-- Truthiness of a JS optional boolean. -/
def boolT (o : Option Bool) : Bool := o.getD false

/-- JS expression a || b for optional strings. -/
def jsOrS (a b : Option String) : Option String := if strT a then a else b

/-- JS expression a || b for optional naturals. -/
def jsOrN (a b : Option Nat) : Option Nat := if natT a then a else b

/-- JS expression a || b for optional objects (objects are always truthy). -/
def jsOrO {α : Type} (a b : Option α) : Option α := if a.isSome then a else b

/-- JS expression s || t || "" where s is a string and t an optional string. -/
def jsOrStr (a : String) (b : Option String) : String :=
  if a != "" then a else b.getD ""

/-- Bounding box of a layer or container, from src/types (coords fields x, y, w, h). -/
structure Box where
  x : Rat
  y : Rat
  w : Rat
  h : Rat
deriving Repr, DecidableEq

/-- Per-layer transform record attached by transformLayers in RemapperNode.tsx. -/
structure Transform2D where
  scaleX : Rat
  scaleY : Rat
  offsetX : Rat
  offsetY : Rat
deriving Repr, DecidableEq

/-- A node of the design-layer tree (SerializableLayer in the source), as used by
usePsdResolver.ts and RemapperNode.tsx.  The children field distinguishes a JS
undefined children field (none) from an empty list (some []). -/
inductive SerializableLayer where
  | mk (id : String) (name : String) (ltype : String) (isVisible : Bool)
       (opacity : Rat) (coords : Box) (transf : Option Transform2D)
       (generativePrompt : Option String)
       (children : Option (List SerializableLayer)) : SerializableLayer
deriving BEq

namespace SerializableLayer

def id : SerializableLayer → String
  | .mk i _ _ _ _ _ _ _ _ => i

def name : SerializableLayer → String
  | .mk _ n _ _ _ _ _ _ _ => n

def ltype : SerializableLayer → String
  | .mk _ _ t _ _ _ _ _ _ => t

def coords : SerializableLayer → Box
  | .mk _ _ _ _ _ c _ _ _ => c

def children : SerializableLayer → Option (List SerializableLayer)
  | .mk _ _ _ _ _ _ _ _ ch => ch

end SerializableLayer

/-- Source and target bounds metrics stored on a payload (RemapperNode.tsx). -/
structure Metrics where
  sourceW : Rat
  sourceH : Rat
  targetW : Rat
  targetH : Rat
deriving Repr, DecidableEq

/-- The per-slot reconciled record (TransformedPayload in src/types), with the
fields read or written by ProceduralContext.tsx and RemapperNode.tsx.  Fields
that the source may leave undefined are Option. -/
@[ext] structure TransformedPayload where
  status : String
  sourceNodeId : String
  sourceContainer : String
  targetContainer : String
  layers : List SerializableLayer
  scaleFactor : Rat
  metrics : Option Metrics
  requiresGeneration : Bool
  previewUrl : Option String
  isConfirmed : Option Bool
  isTransient : Option Bool
  isSynthesizing : Option Bool
  sourceReference : Option String
  generationId : Option Nat
  history : Option (List String)
  activeHistoryIndex : Option Nat
  latestDraftUrl : Option String
  generationAllowed : Option Bool
deriving BEq

namespace TransformedPayload

/-- Rule 0 of reconcileTerminalState (ProceduralContext.tsx lines 50-66):
the generative logic gate strips every generative field and drops synthetic
generative layers, keeping geometry. -/
def killRes (inc : TransformedPayload) : TransformedPayload :=
  { inc with
    previewUrl := none
    history := some []
    activeHistoryIndex := some 0
    isConfirmed := some false
    isTransient := some false
    isSynthesizing := some false
    requiresGeneration := false
    latestDraftUrl := none
    layers := inc.layers.filter fun l => l.ltype != "generative" }

/-- Rule 1 condition (line 70): the stale guard fires when both generation ids
are truthy and the incoming one is strictly smaller. -/
def staleFor (inc c : TransformedPayload) : Bool :=
  natT c.generationId && natT inc.generationId &&
    decide (inc.generationId.getD 0 < c.generationId.getD 0)

/-- Rule 2 (lines 76-86): idle status flushes the visual fields. -/
def idleRes (inc : TransformedPayload) : TransformedPayload :=
  { inc with
    previewUrl := none
    history := some []
    activeHistoryIndex := some 0
    isConfirmed := some false
    isTransient := some false
    isSynthesizing := some false }

/-- Rule 3 (lines 89-102): the synthesis flush merges onto the current payload,
preserving its preview and history, and keeps the stored generation id. -/
def synthRes (inc : TransformedPayload) (cur : Option TransformedPayload) :
    TransformedPayload :=
  { cur.getD inc with
    isSynthesizing := some true
    previewUrl := cur.bind (·.previewUrl)
    history := some ((cur.bind (·.history)).getD [])
    sourceReference := jsOrS inc.sourceReference (cur.bind (·.sourceReference))
    targetContainer := jsOrStr inc.targetContainer (cur.map (·.targetContainer))
    metrics := jsOrO inc.metrics (cur.bind (·.metrics))
    generationId := cur.bind (·.generationId)
    generationAllowed := some true }

/-- Rule 4 (lines 104-125): history accumulation.  Pushes the current preview
when a new truthy preview arrives, deduplicating against the last entry and
keeping only the last five entries. -/
def nextHist (inc : TransformedPayload) (cur : Option TransformedPayload) :
    List String :=
  let h0 := (cur.bind (·.history)).getD []
  let currentUrl := cur.bind (·.previewUrl)
  let isNewImage := strT inc.previewUrl && (inc.previewUrl != currentUrl)
  if isNewImage then
    if strT currentUrl then
      let cu := currentUrl.getD ""
      let h1 := if h0.getLast? == some cu then h0 else h0 ++ [cu]
      if h1.length > 5 then h1.drop (h1.length - 5) else h1
    else h0
  else h0

/-- Rule 5 (lines 129-134): the confirmation flag, a nullish chain forced to
false for transient drafts. -/
def confirmFlag (inc : TransformedPayload) (cur : Option TransformedPayload) :
    Bool :=
  let base :=
    match inc.isConfirmed with
    | some b => b
    | none => (cur.bind (·.isConfirmed)).getD false
  if boolT inc.isTransient then false else base

/-- Rule 6 (lines 138-152): geometric preservation restores the generative
fields from the current payload onto the incoming geometry. -/
def geomPreserve (inc c : TransformedPayload) : TransformedPayload :=
  { inc with
    previewUrl := c.previewUrl
    history := c.history
    activeHistoryIndex := c.activeHistoryIndex
    latestDraftUrl := c.latestDraftUrl
    generationId := c.generationId
    isSynthesizing := c.isSynthesizing
    isConfirmed := c.isConfirmed
    isTransient := c.isTransient
    sourceReference := jsOrS c.sourceReference inc.sourceReference
    generationAllowed := some true }

/-- Rule 7 (lines 155-164): the final construction of a content update. -/
def finalBuild (inc : TransformedPayload) (cur : Option TransformedPayload) :
    TransformedPayload :=
  let nh := nextHist inc cur
  { inc with
    history := some nh
    activeHistoryIndex := some (inc.activeHistoryIndex.getD nh.length)
    isConfirmed := some (confirmFlag inc cur)
    sourceReference := jsOrS inc.sourceReference (cur.bind (·.sourceReference))
    generationId := jsOrN inc.generationId (cur.bind (·.generationId))
    generationAllowed := some true }

/-- Rules 4-7: the fill phase.  In the source the history is computed before the
geometric-preservation test but is only used by the final construction; the
computation is pure, so it is folded into finalBuild here. -/
def fillPhase (inc : TransformedPayload) (cur : Option TransformedPayload) :
    TransformedPayload :=
  match cur with
  | some c =>
      if !natT inc.generationId && natT c.generationId then geomPreserve inc c
      else finalBuild inc (some c)
  | none => finalBuild inc none

/-- Rules 2-7, after the gate and the stale guard. -/
def postStale (inc : TransformedPayload) (cur : Option TransformedPayload) :
    TransformedPayload :=
  if inc.status = "idle" then idleRes inc
  else if boolT inc.isSynthesizing then synthRes inc cur
  else fillPhase inc cur

end TransformedPayload

open TransformedPayload in
/-- The reconciler state machine, ProceduralContext.tsx lines 42-165. -/
def reconcileTerminalState (inc : TransformedPayload)
    (cur : Option TransformedPayload) : TransformedPayload :=
  if inc.generationAllowed = some false then killRes inc
  else
    match cur with
    | some c => if staleFor inc c then c else postStale inc (some c)
    | none => postStale inc none

/-! ## Name resolver, src/hooks/usePsdResolver.ts -/

/-- The match test of findLayerDeep (lines 24-26): exact equality when case
sensitive, lower-cased equality otherwise. -/
def nameMatches (nm target : String) (caseSensitive : Bool) : Bool :=
  if caseSensitive then nm == target else nm.toLower == target.toLower

/-- Deep recursive pre-order search for a layer by name
(usePsdResolver.ts lines 21-41). -/
def findLayerDeep : List SerializableLayer → String → Bool → Option SerializableLayer
  | [], _, _ => none
  | SerializableLayer.mk i nm t vis op co tr gp ch :: rest, target, cs =>
      if nameMatches nm target cs then
        some (SerializableLayer.mk i nm t vis op co tr gp ch)
      else
        let fromChildren :=
          match ch with
          | some cls => if cls.length > 0 then findLayerDeep cls target cs else none
          | none => none
        match fromChildren with
        | some f => some f
        | none => findLayerDeep rest target cs

/-- Result record of resolveLayer (usePsdResolver.ts lines 13-17); the status is
the source's string literal union. -/
structure ResolverResult where
  layer : Option SerializableLayer
  status : String
  message : String

/-- Whitespace trim on both ends, at the character-list level (the JS trim). -/
def jsTrim (s : String) : String :=
  String.mk
    (((s.data.dropWhile Char.isWhitespace).reverse.dropWhile
        Char.isWhitespace).reverse)

/-- Leading-marker stripping of resolveLayer (line 78): remove the leading run
of exclamation marks, then trim whitespace. -/
def cleanTargetName (templateName : String) : String :=
  jsTrim (String.mk (templateName.data.dropWhile (· == '!')))

/-- resolveLayer, usePsdResolver.ts lines 59-132. -/
def resolveLayer (templateName : String)
    (designTree : Option (List SerializableLayer)) : ResolverResult :=
  match designTree with
  | none => ⟨none, "DATA_LOCKED", "Waiting for layer data..."⟩
  | some tree =>
    if templateName == "" then ⟨none, "NO_NAME", "No container connected"⟩
    else
      let clean := cleanTargetName templateName
      if clean == "" then ⟨none, "NO_NAME", "Invalid name"⟩
      else
        match findLayerDeep tree clean true with
        | some m =>
            if (m.children.getD []).length == 0 then
              ⟨some m, "EMPTY_GROUP", "Group is empty"⟩
            else
              ⟨some m, "RESOLVED",
                toString (m.children.getD []).length ++ " Layers Found"⟩
        | none =>
            match findLayerDeep tree clean false with
            | some m =>
                if (m.children.getD []).length == 0 then
                  ⟨some m, "EMPTY_GROUP", "Empty (Case Mismatch)"⟩
                else
                  ⟨some m, "CASE_MISMATCH", "Warning: Case Mismatch"⟩
            | none =>
                ⟨none, "MISSING_DESIGN_GROUP",
                  "No group named " ++ clean⟩

/-- Depth-first pre-order flattening of a layer tree: each node followed by its
descendants, siblings in order.  Used to state which node is the first match of
a traversal. -/
def flattenTree : List SerializableLayer → List SerializableLayer
  | [] => []
  | SerializableLayer.mk i nm t vis op co tr gp ch :: rest =>
      SerializableLayer.mk i nm t vis op co tr gp ch ::
        ((match ch with
          | some cls => flattenTree cls
          | none => []) ++ flattenTree rest)

/-! ## Layout transform engine, src/components/RemapperNode.tsx -/

/-- Modelled from the spec: the constant MAX_BOUNDARY_VIOLATION_PERCENT lives in
src/types.ts, which is not part of the provided sources; the spec fixes its
value to 0.1 (section 8, boundary-clamp scenario). -/
def MAX_BOUNDARY_VIOLATION_PERCENT : Rat := 1/10

/-- A per-layer override of a layout strategy (spec section 3; consumed at
RemapperNode.tsx lines 450-457). -/
structure LayerOverride where
  layerId : String
  xOffset : Rat
  yOffset : Rat
  individualScale : Rat
deriving Repr, DecidableEq

/-- The advisory layout strategy consumed by RemapperNode.tsx lines 422-432. -/
structure LayoutStrategy where
  suggestedScale : Rat
  anchor : String
  overrides : Option (List LayerOverride)
  isExplicitIntent : Bool
  generativePrompt : Option String
  sourceReference : Option String
deriving Repr

/-- Scale and anchor computation of RemapperNode.tsx lines 416-438: baseline
aspect-preserving fit, overridden by the strategy's suggested scale and anchor;
returns (scale, anchorX, anchorY). -/
def computePlacement (sourceRect targetRect : Box)
    (strategy : Option LayoutStrategy) : Rat × Rat × Rat :=
  let ratioX := targetRect.w / sourceRect.w
  let ratioY := targetRect.h / sourceRect.h
  let scale0 := min ratioX ratioY
  match strategy with
  | some strat =>
      let scale := strat.suggestedScale
      let scaledW := sourceRect.w * scale
      let scaledH := sourceRect.h * scale
      let anchorX := targetRect.x + (targetRect.w - scaledW) / 2
      let anchorY :=
        if strat.anchor == "TOP" then targetRect.y
        else if strat.anchor == "BOTTOM" then targetRect.y + (targetRect.h - scaledH)
        else targetRect.y + (targetRect.h - scaledH) / 2
      (scale, anchorX, anchorY)
  | none =>
      let scaledW := sourceRect.w * scale0
      let scaledH := sourceRect.h * scale0
      (scale0, targetRect.x + (targetRect.w - scaledW) / 2,
        targetRect.y + (targetRect.h - scaledH) / 2)

/-- transformLayers, RemapperNode.tsx lines 440-473.  The closure context
(source and target rectangles, scale, anchors, strategy) is passed explicitly;
the last two arguments are parentDeltaX and parentDeltaY. -/
def transformLayers (sourceRect targetRect : Box) (scale anchorX anchorY : Rat)
    (strategy : Option LayoutStrategy) :
    List SerializableLayer → Rat → Rat → List SerializableLayer
  | [], _, _ => []
  | SerializableLayer.mk i nm t vis op co _tr gp ch :: rest, pdx, pdy =>
      let relX := (co.x - sourceRect.x) / sourceRect.w
      let relY := (co.y - sourceRect.y) / sourceRect.h
      let geomX := anchorX + relX * (sourceRect.w * scale)
      let geomY := anchorY + relY * (sourceRect.h * scale)
      let ovr := (strategy.bind (·.overrides)).bind
        (List.find? fun o => o.layerId == i)
      let finalX :=
        match ovr with
        | some o => targetRect.x + o.xOffset
        | none => geomX + pdx
      let preY :=
        match ovr with
        | some o => targetRect.y + o.yOffset
        | none => geomY + pdy
      let layerScaleX :=
        match ovr with
        | some o => scale * o.individualScale
        | none => scale
      let layerScaleY :=
        match ovr with
        | some o => scale * o.individualScale
        | none => scale
      let bleedY := targetRect.h * MAX_BOUNDARY_VIOLATION_PERCENT
      let minY := targetRect.y - bleedY
      let maxY := targetRect.y + targetRect.h + bleedY
      let finalY := max minY (min preY maxY)
      let newW := co.w * layerScaleX
      let newH := co.h * layerScaleY
      let newCh :=
        match ch with
        | some cls =>
            some (transformLayers sourceRect targetRect scale anchorX anchorY
              strategy cls pdx pdy)
        | none => none
      SerializableLayer.mk i nm t vis op (Box.mk finalX finalY newW newH)
          (some (Transform2D.mk layerScaleX layerScaleY finalX finalY)) gp newCh
        :: transformLayers sourceRect targetRect scale anchorX anchorY strategy
            rest pdx pdy

/-! ## Store operations, src/store/ProceduralContext.tsx -/

/-- The per-node per-handle payload registry
(Record nodeId (Record handleId TransformedPayload)). -/
def PayloadRegistry : Type :=
  String → Option (String → Option TransformedPayload)

/-- A Partial of TransformedPayload: every field optional.  A key present with
an explicitly undefined value is conflated with an absent key (the store's
callers only pass object literals with defined values). -/
structure PartialPayload where
  status : Option String
  sourceNodeId : Option String
  sourceContainer : Option String
  targetContainer : Option String
  layers : Option (List SerializableLayer)
  scaleFactor : Option Rat
  metrics : Option Metrics
  requiresGeneration : Option Bool
  previewUrl : Option String
  isConfirmed : Option Bool
  isTransient : Option Bool
  isSynthesizing : Option Bool
  sourceReference : Option String
  generationId : Option Nat
  history : Option (List String)
  activeHistoryIndex : Option Nat
  latestDraftUrl : Option String
  generationAllowed : Option Bool

/-- An entirely absent partial (the empty object literal). -/
def PartialPayload.empty : PartialPayload :=
  ⟨none, none, none, none, none, none, none, none, none, none, none, none,
   none, none, none, none, none, none⟩

/-- JS spread of a partial over a current payload
({ ...currentPayload, ...partial }, ProceduralContext.tsx line 293). -/
def mergePartial (cur : TransformedPayload) (p : PartialPayload) :
    TransformedPayload :=
  { status := p.status.getD cur.status
    sourceNodeId := p.sourceNodeId.getD cur.sourceNodeId
    sourceContainer := p.sourceContainer.getD cur.sourceContainer
    targetContainer := p.targetContainer.getD cur.targetContainer
    layers := p.layers.getD cur.layers
    scaleFactor := p.scaleFactor.getD cur.scaleFactor
    metrics := jsOrO p.metrics cur.metrics
    requiresGeneration := p.requiresGeneration.getD cur.requiresGeneration
    previewUrl := jsOrO p.previewUrl cur.previewUrl
    isConfirmed := jsOrO p.isConfirmed cur.isConfirmed
    isTransient := jsOrO p.isTransient cur.isTransient
    isSynthesizing := jsOrO p.isSynthesizing cur.isSynthesizing
    sourceReference := jsOrO p.sourceReference cur.sourceReference
    generationId := jsOrO p.generationId cur.generationId
    history := jsOrO p.history cur.history
    activeHistoryIndex := jsOrO p.activeHistoryIndex cur.activeHistoryIndex
    latestDraftUrl := jsOrO p.latestDraftUrl cur.latestDraftUrl
    generationAllowed := jsOrO p.generationAllowed cur.generationAllowed }

/-- The cast (partial as TransformedPayload) on ProceduralContext.tsx line 294,
reached only when the partial supplies a sourceContainer or a previewUrl.
Keys absent from the partial are undefined at runtime; for the fields whose
type is not optional they are modelled by neutral defaults, which no modelled
code path observes. -/
def forcePayload (p : PartialPayload) : TransformedPayload :=
  { status := p.status.getD ""
    sourceNodeId := p.sourceNodeId.getD ""
    sourceContainer := p.sourceContainer.getD ""
    targetContainer := p.targetContainer.getD ""
    layers := p.layers.getD []
    scaleFactor := p.scaleFactor.getD 0
    metrics := p.metrics
    requiresGeneration := p.requiresGeneration.getD false
    previewUrl := p.previewUrl
    isConfirmed := p.isConfirmed
    isTransient := p.isTransient
    isSynthesizing := p.isSynthesizing
    sourceReference := p.sourceReference
    generationId := p.generationId
    history := p.history
    activeHistoryIndex := p.activeHistoryIndex
    latestDraftUrl := p.latestDraftUrl
    generationAllowed := p.generationAllowed }

/-- Structural equality of payloads, standing for the
JSON.stringify comparison the store uses before committing a write. -/
def payloadEq (a b : TransformedPayload) : Bool :=
  a == b

/-- updatePayload, ProceduralContext.tsx lines 283-309: atomic partial update.
A non-existent payload with a partial that supplies neither a sourceContainer
nor a previewUrl is left untouched; otherwise the partial is merged, the result
reconciled and written back unless structurally equal to the current value. -/
def updatePayload (reg : PayloadRegistry) (nodeId handleId : String)
    (part : PartialPayload) : PayloadRegistry :=
  let nodeRecord := (reg nodeId).getD fun _ => none
  let currentPayload := nodeRecord handleId
  if currentPayload.isNone && !strT part.sourceContainer
      && !strT part.previewUrl then reg
  else
    let merged :=
      match currentPayload with
      | some c => mergePartial c part
      | none => forcePayload part
    let reconciled := reconcileTerminalState merged currentPayload
    if currentPayload.isSome && currentPayload == some reconciled then reg
    else fun n =>
      if n = nodeId then
        some fun h => if h = handleId then some reconciled else nodeRecord h
      else reg n

/-- The payload-level body of seekHistory, ProceduralContext.tsx lines 358-423:
computes the clamped next index and the updated payload; none models the
early return prev branches (no movement, or seeking onto the tip with no view
to restore). -/
def seekHistoryStep (payload : TransformedPayload) (direction : Int) :
    Option TransformedPayload :=
  let history := payload.history.getD []
  let maxIndex := history.length
  let currentIndex := payload.activeHistoryIndex.getD maxIndex
  let nextIndex := (max 0 (min ((currentIndex : Int) + direction) (maxIndex : Int))).toNat
  if nextIndex = currentIndex then none
  else
    let viewUrl := if nextIndex < history.length then history.get? nextIndex else none
    let isConfirmed :=
      if nextIndex < history.length then some false else payload.isConfirmed
    if !strT viewUrl && nextIndex = history.length then none
    else
      some { payload with
        activeHistoryIndex := some nextIndex
        previewUrl := jsOrS viewUrl payload.previewUrl
        isConfirmed := isConfirmed }

/-- seekHistory, ProceduralContext.tsx lines 352-425, at the registry level. -/
def seekHistory (reg : PayloadRegistry) (nodeId handleId : String)
    (direction : Int) : PayloadRegistry :=
  match reg nodeId with
  | none => reg
  | some nodeRecord =>
    match nodeRecord handleId with
    | none => reg
    | some payload =>
      match seekHistoryStep payload direction with
      | none => reg
      | some updated => fun n =>
          if n = nodeId then
            some fun h => if h = handleId then some updated else nodeRecord h
          else reg n

/-! ## Helper lemmas -/

@[simp] lemma SerializableLayer.ltype_mk (i n t : String) (v : Bool) (o : Rat)
    (c : Box) (tr : Option Transform2D) (g : Option String)
    (ch : Option (List SerializableLayer)) :
    (SerializableLayer.mk i n t v o c tr g ch).ltype = t := rfl

@[simp] lemma SerializableLayer.name_mk (i n t : String) (v : Bool) (o : Rat)
    (c : Box) (tr : Option Transform2D) (g : Option String)
    (ch : Option (List SerializableLayer)) :
    (SerializableLayer.mk i n t v o c tr g ch).name = n := rfl

@[simp] lemma SerializableLayer.coords_mk (i n t : String) (v : Bool) (o : Rat)
    (c : Box) (tr : Option Transform2D) (g : Option String)
    (ch : Option (List SerializableLayer)) :
    (SerializableLayer.mk i n t v o c tr g ch).coords = c := rfl

@[simp] lemma SerializableLayer.children_mk (i n t : String) (v : Bool) (o : Rat)
    (c : Box) (tr : Option Transform2D) (g : Option String)
    (ch : Option (List SerializableLayer)) :
    (SerializableLayer.mk i n t v o c tr g ch).children = ch := rfl

@[simp] lemma natT_none : natT none = false := rfl

@[simp] lemma natT_some (n : Nat) : natT (some n) = (n != 0) := rfl

@[simp] lemma strT_none : strT none = false := rfl

@[simp] lemma strT_some (s : String) : strT (some s) = (s != "") := rfl

@[simp] lemma boolT_none : boolT none = false := rfl

@[simp] lemma boolT_some (b : Bool) : boolT (some b) = b := rfl

lemma jsOrS_absorb (a b : Option String) : jsOrS a (jsOrS a b) = jsOrS a b := by
  by_cases h : strT a <;> simp [jsOrS, h]

lemma jsOrN_absorb (a b : Option Nat) : jsOrN a (jsOrN a b) = jsOrN a b := by
  by_cases h : natT a <;> simp [jsOrN, h]

lemma jsOrS_left_absorb (a b : Option String) :
    jsOrS (jsOrS a b) b = jsOrS a b := by
  by_cases h : strT a <;> simp [jsOrS, h]

lemma jsOrO_absorb {α : Type} (a b : Option α) : jsOrO a (jsOrO a b) = jsOrO a b := by
  by_cases h : a.isSome <;> simp [jsOrO, h]

/-- A neutral payload all the concrete instances below derive from. -/
def basePayload : TransformedPayload where
  status := "success"
  sourceNodeId := "node-1"
  sourceContainer := "HERO"
  targetContainer := "slot-0"
  layers := []
  scaleFactor := 1
  metrics := none
  requiresGeneration := false
  previewUrl := none
  isConfirmed := none
  isTransient := none
  isSynthesizing := none
  sourceReference := none
  generationId := none
  history := none
  activeHistoryIndex := none
  latestDraftUrl := none
  generationAllowed := some true

/-- Synthetic generative layer as unshifted by RemapperNode.tsx lines 500-509. -/
def genLayer : SerializableLayer :=
  .mk "gen-layer-1" "AI Gen" "generative" true 1 ⟨0, 0, 50, 50⟩ none
    (some "a red car") none

/-- An ordinary design layer. -/
def artLayer : SerializableLayer :=
  .mk "layer-2" "Art" "layer" true 1 ⟨1, 2, 3, 4⟩ none none none

/-- Disallowed incoming candidate carrying generative state and a stale id. -/
def killIncoming : TransformedPayload :=
  { basePayload with
    generationAllowed := some false
    generationId := some 3
    layers := [genLayer, artLayer]
    scaleFactor := 2
    previewUrl := some "ghost.png"
    history := some ["old.png"]
    isConfirmed := some true
    isTransient := some true
    isSynthesizing := some true
    latestDraftUrl := some "draft.png" }

/-- Stored payload with a newer generation id than killIncoming. -/
def killStored : TransformedPayload :=
  { basePayload with generationId := some 9, previewUrl := some "cur.png" }

/-- Incoming candidate whose generation id is the defined number zero. -/
def staleIncomingZero : TransformedPayload :=
  { basePayload with generationId := some 0, scaleFactor := 2 }

/-- Stored payload with generation id five. -/
def staleStored : TransformedPayload :=
  { basePayload with
    generationId := some 5
    scaleFactor := 1
    previewUrl := some "keep.png" }

/-- Incoming candidate with a nonzero id older than staleStored. -/
def staleIncomingW : TransformedPayload :=
  { basePayload with generationId := some 3, scaleFactor := 2 }

/-- Incoming candidate whose generation id equals the stored one. -/
def equalIdIncoming : TransformedPayload :=
  { basePayload with
    generationId := some 5
    previewUrl := some "b.png"
    scaleFactor := 3 }

/-- Stored payload with the same generation id as equalIdIncoming. -/
def equalIdStored : TransformedPayload :=
  { basePayload with generationId := some 5, previewUrl := some "a.png" }

/-- Geometry-only candidate (no generation id) with its own source reference. -/
def geomIncomingA : TransformedPayload :=
  { basePayload with sourceReference := some "ref-x.png" }

/-- Stored payload with generative state but no source reference. -/
def geomStoredA : TransformedPayload :=
  { basePayload with
    generationId := some 5
    previewUrl := some "p.png"
    history := some ["h1.png"]
    activeHistoryIndex := some 0
    latestDraftUrl := some "d.png"
    isSynthesizing := some false
    isConfirmed := some true
    isTransient := some false }

/-- Stored payload whose defined generation id is the number zero. -/
def geomStoredB : TransformedPayload :=
  { basePayload with generationId := some 0, previewUrl := some "p.png" }

/-- Geometry-only candidate used with the amended geometric preservation. -/
def geomIncomingW : TransformedPayload :=
  { basePayload with scaleFactor := 7, previewUrl := some "ignored.png" }

/-- Content update carrying no preview at all. -/
def histIncomingA : TransformedPayload :=
  { basePayload with generationId := some 1 }

/-- Stored payload with a defined nonempty preview and empty history. -/
def histStoredA : TransformedPayload :=
  { basePayload with previewUrl := some "a.png", history := some [] }

/-- Content update with a fresh preview. -/
def histIncomingB : TransformedPayload :=
  { basePayload with generationId := some 1, previewUrl := some "b.png" }

/-- Stored payload whose preview is the defined empty string. -/
def histStoredB : TransformedPayload :=
  { basePayload with previewUrl := some "", history := some [] }

/-- Content update for the history-append witness. -/
def histIncomingW : TransformedPayload :=
  { basePayload with previewUrl := some "new.png", generationId := some 2 }

/-- Stored payload with a full history for the history-append witness. -/
def histStoredW : TransformedPayload :=
  { basePayload with
    previewUrl := some "old.png"
    generationId := some 1
    history := some ["h1.png", "h2.png", "h3.png", "h4.png", "h5.png"] }

/-- Stored payload confirmed at the tip with one history entry. -/
def seekPayloadA : TransformedPayload :=
  { basePayload with
    history := some ["a.png"]
    activeHistoryIndex := some 1
    isConfirmed := some true
    previewUrl := some "p.png" }

/-- Stored payload one step inside a two-entry history. -/
def seekPayloadB : TransformedPayload :=
  { basePayload with
    history := some ["a.png", "b.png"]
    activeHistoryIndex := some 1
    previewUrl := some "p.png" }

/-- Stored payload at the tip of a two-entry history, confirmed. -/
def seekPayloadW : TransformedPayload :=
  { basePayload with
    history := some ["x.png", "y.png"]
    activeHistoryIndex := some 2
    previewUrl := some "p.png"
    isConfirmed := some true }

/-- A layer whose name is the empty string. -/
def emptyNameLayer : SerializableLayer :=
  .mk "l-empty" "" "group" true 1 ⟨0, 0, 0, 0⟩ none none none

/-- A group named SYMBOLS containing one layer. -/
def symbolsUpper : SerializableLayer :=
  .mk "l-sym-upper" "SYMBOLS" "group" true 1 ⟨0, 0, 10, 10⟩ none none
    (some [artLayer])

/-- A distinct group named Symbols (case-insensitive match for SYMBOLS). -/
def symbolsMixed : SerializableLayer :=
  .mk "l-sym-mixed" "Symbols" "group" true 1 ⟨0, 0, 10, 10⟩ none none
    (some [artLayer])

/-- A wrapper group nesting both Symbols and SYMBOLS, the case-insensitive
match occurring first in pre-order. -/
def wrapperLayer : SerializableLayer :=
  .mk "l-wrap" "Wrapper" "group" true 1 ⟨0, 0, 99, 99⟩ none none
    (some [symbolsMixed, symbolsUpper])

/-- Layer whose computed position lands thirty units above the target box. -/
def clampLayer : SerializableLayer :=
  .mk "L1" "Shape" "layer" true 1 ⟨0, -15, 10, 10⟩ none none none

/-- Source box of the boundary-clamp scenario. -/
def srcBox : Box := ⟨0, 0, 50, 50⟩

/-- Target box of the boundary-clamp scenario (height 100). -/
def tgtBox : Box := ⟨0, 0, 100, 100⟩

/-- The empty payload registry. -/
def emptyRegistry : PayloadRegistry := fun _ => none

/-- The clamped one-step target index of seekHistory (lines 363-366): the
current cursor (defaulting to the tip) moved by the direction and clamped to
the closed range from zero to the history length. -/
def seekNextIndex (payload : TransformedPayload) (direction : Int) : Nat :=
  (max 0 (min ((payload.activeHistoryIndex.getD
      (payload.history.getD []).length : Int) + direction)
    (((payload.history.getD []).length : Int)))).toNat

/-- Length of the stored history list of a payload. -/
def payloadHistLen (p : TransformedPayload) : Nat :=
  (p.history.getD []).length

/-- Length of the stored history of an optional payload (zero when absent). -/
def optHistLen : Option TransformedPayload → Nat
  | none => 0
  | some p => payloadHistLen p

/-- A sequence of reconciliations folded into the store: each incoming
candidate is reconciled against the payload produced so far. -/
def reconcileFold (cur : Option TransformedPayload)
    (incs : List TransformedPayload) : Option TransformedPayload :=
  incs.foldl (fun c i => some (reconcileTerminalState i c)) cur

open TransformedPayload

/-! ## C2: the generative kill switch -/

/-- C2: whenever the incoming candidate has generationAllowed set to false,
reconciliation returns a payload with no preview, no latest draft, an empty
history, all of isConfirmed, isTransient and isSynthesizing false, while the
geometry (scaleFactor, metrics, and the layers minus any generative layer) is
preserved from the incoming candidate, for every stored payload including
none; the gate precedes the stale guard, so no constraint on the stored
payload is needed. -/
theorem reconcile_kill_switch (inc : TransformedPayload)
    (cur : Option TransformedPayload) (h : inc.generationAllowed = some false) :
    (reconcileTerminalState inc cur).previewUrl = none ∧
    (reconcileTerminalState inc cur).latestDraftUrl = none ∧
    (reconcileTerminalState inc cur).history = some [] ∧
    (reconcileTerminalState inc cur).isConfirmed = some false ∧
    (reconcileTerminalState inc cur).isTransient = some false ∧
    (reconcileTerminalState inc cur).isSynthesizing = some false ∧
    (reconcileTerminalState inc cur).scaleFactor = inc.scaleFactor ∧
    (reconcileTerminalState inc cur).metrics = inc.metrics ∧
    (reconcileTerminalState inc cur).layers
      = inc.layers.filter (fun l => l.ltype != "generative") := by
  simp [reconcileTerminalState, h, killRes]

/-- Concrete instance of the kill switch: a disallowed candidate carrying a
generative layer and a stale generation id, against a stored payload holding a
newer id and visual state. -/
theorem reconcile_kill_switch_witness :
    (reconcileTerminalState killIncoming (some killStored)).previewUrl = none ∧
    (reconcileTerminalState killIncoming (some killStored)).latestDraftUrl = none ∧
    (reconcileTerminalState killIncoming (some killStored)).history = some [] ∧
    (reconcileTerminalState killIncoming (some killStored)).isConfirmed = some false ∧
    (reconcileTerminalState killIncoming (some killStored)).isTransient = some false ∧
    (reconcileTerminalState killIncoming (some killStored)).isSynthesizing = some false ∧
    (reconcileTerminalState killIncoming (some killStored)).scaleFactor
      = killIncoming.scaleFactor ∧
    (reconcileTerminalState killIncoming (some killStored)).metrics
      = killIncoming.metrics ∧
    (reconcileTerminalState killIncoming (some killStored)).layers
      = killIncoming.layers.filter (fun l => l.ltype != "generative") :=
  reconcile_kill_switch killIncoming (some killStored) rfl

/-! ## C1: the stale guard -/

/-- C1 counterexample: the stored payload has the defined generation id 5 and
the incoming candidate the defined, strictly smaller generation id 0, with
generation allowed; yet the reconciler does not return the stored payload
unchanged (the JS truthiness test skips the guard for the id 0, and the update
is treated as a pure-geometry recomputation instead). -/
theorem reconcile_stale_guard_counterexample :
    reconcileTerminalState staleIncomingZero (some staleStored) ≠ staleStored := by
  intro h
  have hsc := congrArg TransformedPayload.scaleFactor h
  simp [reconcileTerminalState, staleIncomingZero, staleStored, basePayload,
    postStale, fillPhase, geomPreserve, staleFor, boolT, natT] at hsc

/-- C1 amended: for every stored payload with a defined nonzero generation id N
and every incoming candidate whose generationAllowed is not false and whose
generation id is defined, nonzero and strictly smaller than N, the reconciler
discards the incoming update entirely and returns the stored payload
unchanged. -/
theorem reconcile_stale_guard (inc cur : TransformedPayload) (gi N : Nat)
    (hga : inc.generationAllowed ≠ some false)
    (hgi : inc.generationId = some gi) (hN : cur.generationId = some N)
    (hgz : gi ≠ 0) (hlt : gi < N) :
    reconcileTerminalState inc (some cur) = cur := by
  have hNz : N ≠ 0 := by omega
  have hstale : staleFor inc cur = true := by
    simp [staleFor, hgi, hN, hgz, hNz, hlt]
  simp [reconcileTerminalState, hga, hstale]

/-- Concrete instance of the amended stale guard: id 3 against stored id 5. -/
theorem reconcile_stale_guard_witness :
    reconcileTerminalState staleIncomingW (some staleStored) = staleStored :=
  reconcile_stale_guard staleIncomingW staleStored 3 5 (by simp [staleIncomingW, basePayload])
    rfl rfl (by omega) (by omega)

/-! ## C4: equal generation ids are not rejected -/

/-- C4 counterexample: incoming and stored payloads both carry generation id 5;
the claim says the incoming update is rejected and the stored payload returned
unchanged, but the reconciler accepts it (the guard tests strict inequality
only): the result carries the incoming preview, not the stored one. -/
theorem reconcile_equal_id_counterexample :
    reconcileTerminalState equalIdIncoming (some equalIdStored) ≠ equalIdStored := by
  intro h
  have hsc := congrArg TransformedPayload.scaleFactor h
  simp [reconcileTerminalState, equalIdIncoming, equalIdStored, basePayload,
    postStale, fillPhase, finalBuild, staleFor, natT, boolT, nextHist] at hsc

/-- C4 amended: an incoming candidate whose defined nonzero generation id
equals the stored one is not rejected: the stale guard only discards strictly
smaller ids, so the update proceeds through the merge and the result carries
the incoming preview, layers, scale factor and the shared generation id
(retransmission is idempotent because the merge is, not because of
rejection). -/
theorem reconcile_equal_id_accepted (inc cur : TransformedPayload) (N : Nat)
    (hga : inc.generationAllowed ≠ some false)
    (hgi : inc.generationId = some N) (hN : cur.generationId = some N)
    (hNz : N ≠ 0) (hidle : inc.status ≠ "idle")
    (hsyn : inc.isSynthesizing ≠ some true) :
    (reconcileTerminalState inc (some cur)).previewUrl = inc.previewUrl ∧
    (reconcileTerminalState inc (some cur)).layers = inc.layers ∧
    (reconcileTerminalState inc (some cur)).scaleFactor = inc.scaleFactor ∧
    (reconcileTerminalState inc (some cur)).generationId = some N := by
  have hstale : staleFor inc cur = false := by
    simp [staleFor, hgi, hN]
  have hsynb : boolT inc.isSynthesizing = false := by
    cases hb : inc.isSynthesizing with
    | none => simp
    | some b => cases b with
      | false => simp
      | true => exact absurd hb hsyn
  simp [reconcileTerminalState, hga, hstale, postStale, hidle, hsynb,
    fillPhase, hN, hgi, hNz, finalBuild, jsOrN, natT]

/-- Concrete instance of the amended equal-id acceptance. -/
theorem reconcile_equal_id_accepted_witness :
    (reconcileTerminalState equalIdIncoming (some equalIdStored)).previewUrl
      = equalIdIncoming.previewUrl ∧
    (reconcileTerminalState equalIdIncoming (some equalIdStored)).layers
      = equalIdIncoming.layers ∧
    (reconcileTerminalState equalIdIncoming (some equalIdStored)).scaleFactor
      = equalIdIncoming.scaleFactor ∧
    (reconcileTerminalState equalIdIncoming (some equalIdStored)).generationId
      = some 5 :=
  reconcile_equal_id_accepted equalIdIncoming equalIdStored 5
    (by simp [equalIdIncoming, basePayload]) rfl rfl (by omega)
    (by simp [equalIdIncoming, basePayload]) (by simp [equalIdIncoming, basePayload])

/-! ## C3: geometric preservation -/

/-- C3 counterexample, two parts.  First: when the stored payload has no
source reference but the incoming geometry recomputation carries one, the
result takes the incoming source reference instead of restoring the stored one
verbatim.  Second: when the stored payload's defined generation id is the
number zero, none of the generative fields are restored at all (the stored
preview is dropped), contradicting the claim for every payload that does
carry a generation id. -/
theorem reconcile_geom_counterexample :
    (reconcileTerminalState geomIncomingA (some geomStoredA)).sourceReference
        ≠ geomStoredA.sourceReference ∧
    (reconcileTerminalState geomIncomingA (some geomStoredB)).previewUrl
        ≠ geomStoredB.previewUrl := by
  constructor
  · simp [reconcileTerminalState, geomIncomingA, geomStoredA, basePayload,
      postStale, fillPhase, geomPreserve, staleFor, natT, boolT, jsOrS, strT]
  · simp [reconcileTerminalState, geomIncomingA, geomStoredB, basePayload,
      postStale, fillPhase, finalBuild, staleFor, natT, boolT, nextHist, strT]

/-- C3 amended: for every incoming candidate with generationAllowed not false,
non-idle status, not synthesizing and no generation id, reconciled against a
stored payload carrying a defined nonzero generation id, the result takes the
incoming geometry (layers, scale factor, status, metrics) and restores
previewUrl, history, activeHistoryIndex, latestDraftUrl, generationId,
isSynthesizing, isConfirmed and isTransient verbatim from the stored payload;
sourceReference is restored from the stored payload when that one is defined
and nonempty, and otherwise falls back to the incoming value. -/
theorem reconcile_geom_preservation (inc cur : TransformedPayload) (N : Nat)
    (hga : inc.generationAllowed ≠ some false)
    (hidle : inc.status ≠ "idle") (hsyn : inc.isSynthesizing ≠ some true)
    (hgi : inc.generationId = none)
    (hN : cur.generationId = some N) (hNz : N ≠ 0) :
    (reconcileTerminalState inc (some cur)).previewUrl = cur.previewUrl ∧
    (reconcileTerminalState inc (some cur)).history = cur.history ∧
    (reconcileTerminalState inc (some cur)).activeHistoryIndex
      = cur.activeHistoryIndex ∧
    (reconcileTerminalState inc (some cur)).latestDraftUrl = cur.latestDraftUrl ∧
    (reconcileTerminalState inc (some cur)).generationId = cur.generationId ∧
    (reconcileTerminalState inc (some cur)).isSynthesizing = cur.isSynthesizing ∧
    (reconcileTerminalState inc (some cur)).isConfirmed = cur.isConfirmed ∧
    (reconcileTerminalState inc (some cur)).isTransient = cur.isTransient ∧
    (reconcileTerminalState inc (some cur)).sourceReference
      = jsOrS cur.sourceReference inc.sourceReference ∧
    (reconcileTerminalState inc (some cur)).layers = inc.layers ∧
    (reconcileTerminalState inc (some cur)).scaleFactor = inc.scaleFactor ∧
    (reconcileTerminalState inc (some cur)).status = inc.status ∧
    (reconcileTerminalState inc (some cur)).metrics = inc.metrics := by
  have hstale : staleFor inc cur = false := by
    simp [staleFor, hgi]
  have hsynb : boolT inc.isSynthesizing = false := by
    cases hb : inc.isSynthesizing with
    | none => simp
    | some b => cases b with
      | false => simp
      | true => exact absurd hb hsyn
  simp [reconcileTerminalState, hga, hstale, postStale, hidle, hsynb,
    fillPhase, hgi, hN, hNz, geomPreserve, natT]

/-- Concrete instance of the amended geometric preservation. -/
theorem reconcile_geom_preservation_witness :
    (reconcileTerminalState geomIncomingW (some geomStoredA)).previewUrl
      = geomStoredA.previewUrl ∧
    (reconcileTerminalState geomIncomingW (some geomStoredA)).history
      = geomStoredA.history ∧
    (reconcileTerminalState geomIncomingW (some geomStoredA)).activeHistoryIndex
      = geomStoredA.activeHistoryIndex ∧
    (reconcileTerminalState geomIncomingW (some geomStoredA)).latestDraftUrl
      = geomStoredA.latestDraftUrl ∧
    (reconcileTerminalState geomIncomingW (some geomStoredA)).generationId
      = geomStoredA.generationId ∧
    (reconcileTerminalState geomIncomingW (some geomStoredA)).isSynthesizing
      = geomStoredA.isSynthesizing ∧
    (reconcileTerminalState geomIncomingW (some geomStoredA)).isConfirmed
      = geomStoredA.isConfirmed ∧
    (reconcileTerminalState geomIncomingW (some geomStoredA)).isTransient
      = geomStoredA.isTransient ∧
    (reconcileTerminalState geomIncomingW (some geomStoredA)).sourceReference
      = jsOrS geomStoredA.sourceReference geomIncomingW.sourceReference ∧
    (reconcileTerminalState geomIncomingW (some geomStoredA)).layers
      = geomIncomingW.layers ∧
    (reconcileTerminalState geomIncomingW (some geomStoredA)).scaleFactor
      = geomIncomingW.scaleFactor ∧
    (reconcileTerminalState geomIncomingW (some geomStoredA)).status
      = geomIncomingW.status ∧
    (reconcileTerminalState geomIncomingW (some geomStoredA)).metrics
      = geomIncomingW.metrics :=
  reconcile_geom_preservation geomIncomingW geomStoredA 5
    (by simp [geomIncomingW, basePayload]) (by simp [geomIncomingW, basePayload])
    (by simp [geomIncomingW, basePayload]) rfl rfl (by omega)

/-! ## C10: updatePayload on a missing payload with an insufficient update -/

/-- C10: for every registry, every node and handle pair with no stored payload,
and every update that supplies neither a sourceContainer nor a previewUrl,
updatePayload returns the registry unchanged: no payload entry is created. -/
theorem updatePayload_insufficient_noop (reg : PayloadRegistry)
    (nodeId handleId : String) (part : PartialPayload)
    (hcur : ((reg nodeId).getD fun _ => none) handleId = none)
    (hsc : part.sourceContainer = none) (hpu : part.previewUrl = none) :
    updatePayload reg nodeId handleId part = reg := by
  simp [updatePayload, hcur, hsc, hpu]

/-- Concrete instance: an empty registry with an entirely absent update. -/
theorem updatePayload_insufficient_noop_witness :
    updatePayload emptyRegistry "node-1" "result-out-0" PartialPayload.empty
      = emptyRegistry :=
  updatePayload_insufficient_noop emptyRegistry "node-1" "result-out-0"
    PartialPayload.empty rfl rfl rfl

/-! ## C9: history navigation -/

/-- C9 counterexample, two parts.  First: a payload confirmed at the tip with
one history entry, navigated one step back, has its stored isConfirmed flag
overwritten to false - navigation does mutate the stored confirmation flag.
Second: a payload one step inside a two-entry history, navigated forward onto
the tip, is not moved at all (the step is dropped), although the claim says
the index always moves by one step clamped to the range. -/
theorem seekHistory_counterexample :
    (seekHistoryStep seekPayloadA (-1)).map (·.isConfirmed)
        = some (some false) ∧
    seekPayloadA.isConfirmed = some true ∧
    seekHistoryStep seekPayloadB 1 = none := by
  refine ⟨?_, rfl, ?_⟩
  · simp [seekHistoryStep, seekPayloadA, basePayload, jsOrS, strT]
  · simp [seekHistoryStep, seekPayloadB, basePayload, strT]

/-- C9 amended: seekHistory moves the cursor by one step clamped to the closed
range from zero to the history length, except that a step landing exactly on
the tip index is dropped (the registry is left unchanged); when the resulting
index lands strictly inside the history, the displayed preview becomes that
history entry (when the entry is nonempty) and the stored isConfirmed flag is
set to false. -/
theorem seekHistory_navigation (payload : TransformedPayload) (direction : Int) :
    (seekNextIndex payload direction
        = payload.activeHistoryIndex.getD (payload.history.getD []).length →
      seekHistoryStep payload direction = none) ∧
    (seekNextIndex payload direction
        ≠ payload.activeHistoryIndex.getD (payload.history.getD []).length →
      seekNextIndex payload direction = (payload.history.getD []).length →
      seekHistoryStep payload direction = none) ∧
    (seekNextIndex payload direction
        ≠ payload.activeHistoryIndex.getD (payload.history.getD []).length →
      seekNextIndex payload direction < (payload.history.getD []).length →
      seekHistoryStep payload direction =
        some { payload with
          activeHistoryIndex := some (seekNextIndex payload direction)
          previewUrl := jsOrS
            ((payload.history.getD []).get? (seekNextIndex payload direction))
            payload.previewUrl
          isConfirmed := some false }) := by
  refine ⟨fun h1 => ?_, fun h1 h2 => ?_, fun h1 h2 => ?_⟩
  · simp [seekHistoryStep, seekNextIndex] at h1 ⊢
    simp [h1]
  · simp [seekHistoryStep, seekNextIndex] at h1 h2 ⊢
    simp [h1, h2]
  · simp [seekHistoryStep, seekNextIndex] at h1 h2 ⊢
    simp [h1, h2]
    omega

/-- Concrete instance of the amended navigation: one step back from the tip of
a two-entry history lands inside the history and restores its entry. -/
theorem seekHistory_navigation_witness :
    seekHistoryStep seekPayloadW (-1) =
      some { seekPayloadW with
        activeHistoryIndex := some (seekNextIndex seekPayloadW (-1))
        previewUrl := jsOrS
          ((seekPayloadW.history.getD []).get? (seekNextIndex seekPayloadW (-1)))
          seekPayloadW.previewUrl
        isConfirmed := some false } :=
  (seekHistory_navigation seekPayloadW (-1)).2.2 (by decide) (by decide)

/-! ## C5: bounded history accumulation -/

lemma nextHist_length_le (inc : TransformedPayload)
    (cur : Option TransformedPayload)
    (hh0 : ((cur.bind (·.history)).getD []).length ≤ 5) :
    (nextHist inc cur).length ≤ 5 := by
  unfold nextHist
  dsimp only
  split_ifs <;> simp_all [List.length_drop]
  all_goals omega

lemma payloadHistLen_postStale_le (inc : TransformedPayload)
    (cur : Option TransformedPayload)
    (hh0 : ((cur.bind (·.history)).getD []).length ≤ 5) :
    payloadHistLen (postStale inc cur) ≤ 5 := by
  have hnext := nextHist_length_le inc cur hh0
  unfold postStale
  split_ifs with h1 h2
  · simp [idleRes, payloadHistLen]
  · simpa [synthRes, payloadHistLen] using hh0
  · unfold fillPhase
    cases cur with
    | none => simpa [finalBuild, payloadHistLen] using hnext
    | some c =>
      dsimp only
      split_ifs with h3
      · simpa [geomPreserve, payloadHistLen] using hh0
      · simpa [finalBuild, payloadHistLen] using hnext

lemma payloadHistLen_reconcile_le (inc : TransformedPayload)
    (cur : Option TransformedPayload) (h : optHistLen cur ≤ 5) :
    payloadHistLen (reconcileTerminalState inc cur) ≤ 5 := by
  have hh0 : ((cur.bind (·.history)).getD []).length ≤ 5 := by
    cases cur with
    | none => simp
    | some c => simpa [optHistLen, payloadHistLen] using h
  by_cases hga : inc.generationAllowed = some false
  · simp [reconcileTerminalState, hga, killRes, payloadHistLen]
  · cases cur with
    | none =>
      simpa [reconcileTerminalState, hga] using
        payloadHistLen_postStale_le inc none hh0
    | some c =>
      by_cases hstale : staleFor inc c
      · simpa [reconcileTerminalState, hga, hstale, optHistLen] using h
      · simpa [reconcileTerminalState, hga, hstale] using
          payloadHistLen_postStale_le inc (some c) hh0

lemma boolT_ne_some_true {o : Option Bool} (h : o ≠ some true) :
    boolT o = false := by
  cases o with
  | none => simp
  | some b => cases b with
    | false => simp
    | true => exact absurd rfl h

lemma reconcile_rule7 (inc c : TransformedPayload)
    (hga : inc.generationAllowed ≠ some false) (hstale : staleFor inc c = false)
    (hidle : inc.status ≠ "idle") (hsyn : inc.isSynthesizing ≠ some true)
    (hr7 : natT inc.generationId ∨ ¬ natT c.generationId) :
    reconcileTerminalState inc (some c) = finalBuild inc (some c) := by
  have hsynb := boolT_ne_some_true hsyn
  have hgeom : (!natT inc.generationId && natT c.generationId) = false := by
    rcases hr7 with h | h
    · simp [h]
    · have h' : natT c.generationId = false := by simpa using h
      simp [h']
  simp [reconcileTerminalState, hga, hstale, postStale, hidle, hsynb,
    fillPhase, hgeom]

/-- C5 counterexample, two parts.  First: an incoming content update carrying
no preview at all differs from the stored defined preview, yet nothing is
appended to the history (the code requires a truthy incoming preview).
Second: a stored preview that is the defined empty string also causes the
append to be skipped (the code requires a truthy stored preview).  In both
runs the resulting history stays empty although the claim requires the
previous preview to be appended. -/
theorem reconcile_history_counterexample :
    (reconcileTerminalState histIncomingA (some histStoredA)).history
        = some [] ∧
    histStoredA.previewUrl = some "a.png" ∧
    (reconcileTerminalState histIncomingB (some histStoredB)).history
        = some [] ∧
    histStoredB.previewUrl = some "" := by
  refine ⟨?_, rfl, ?_, rfl⟩ <;> rfl

/-- C5, amended on the truthiness side conditions: (1) across every sequence
of reconciliations starting from an empty or capacity-respecting history, the
stored history length never exceeds five; (2) on a genuine content update
(rules 0-3 and 6 not applicable) whose defined nonempty preview differs from a
defined nonempty stored preview, the previous preview is appended to the
history and the history is truncated from the front to the last five entries
(most recent entries kept in arrival order); (3) the append is skipped when
the previous preview equals the most recent history entry. -/
theorem reconcile_history_invariant :
    (∀ (start : Option TransformedPayload) (incs : List TransformedPayload),
        optHistLen start ≤ 5 → optHistLen (reconcileFold start incs) ≤ 5) ∧
    (∀ (inc c : TransformedPayload) (u v : String),
        inc.generationAllowed ≠ some false → staleFor inc c = false →
        inc.status ≠ "idle" → inc.isSynthesizing ≠ some true →
        (natT inc.generationId ∨ ¬ natT c.generationId) →
        inc.previewUrl = some u → u ≠ "" →
        c.previewUrl = some v → v ≠ "" → u ≠ v →
        (c.history.getD []).getLast? ≠ some v →
        (reconcileTerminalState inc (some c)).history =
          some ((c.history.getD [] ++ [v]).drop
            ((c.history.getD []).length + 1 - 5))) ∧
    (∀ (inc c : TransformedPayload) (u v : String),
        inc.generationAllowed ≠ some false → staleFor inc c = false →
        inc.status ≠ "idle" → inc.isSynthesizing ≠ some true →
        (natT inc.generationId ∨ ¬ natT c.generationId) →
        inc.previewUrl = some u → u ≠ "" →
        c.previewUrl = some v → v ≠ "" → u ≠ v →
        (c.history.getD []).getLast? = some v →
        (c.history.getD []).length ≤ 5 →
        (reconcileTerminalState inc (some c)).history =
          some (c.history.getD [])) := by
  refine ⟨?_, ?_, ?_⟩
  · intro start incs
    induction incs generalizing start with
    | nil => intro h; simpa [reconcileFold] using h
    | cons i rest ih =>
      intro h
      have hstep := payloadHistLen_reconcile_le i start h
      have hfold : reconcileFold start (i :: rest)
          = reconcileFold (some (reconcileTerminalState i start)) rest := by
        simp [reconcileFold]
      rw [hfold]
      exact ih _ (by simpa [optHistLen] using hstep)
  · intro inc c u v hga hstale hidle hsyn hr7 hpu hu hcu hv hne hdup
    rw [reconcile_rule7 inc c hga hstale hidle hsyn hr7]
    have hnh : nextHist inc (some c) =
        (c.history.getD [] ++ [v]).drop ((c.history.getD []).length + 1 - 5) := by
      unfold nextHist
      dsimp only
      simp only [Option.some_bind, hpu, hcu]
      rw [if_pos (by simp [strT, hpu, hcu, hu, hne])]
      rw [if_pos (by simp [strT, hcu, hv])]
      simp only [Option.getD_some]
      have hin : (if ((c.history.getD []).getLast? == some v) = true
          then c.history.getD [] else c.history.getD [] ++ [v])
          = c.history.getD [] ++ [v] := by simp [hdup]
      rw [hin]
      by_cases hl : (c.history.getD []).length + 1 > 5
      · rw [if_pos (by simp [List.length_append]; omega)]
        congr 1
        simp [List.length_append]
      · rw [if_neg (by simp [List.length_append]; omega)]
        have h5 : (c.history.getD []).length + 1 - 5 = 0 := by omega
        simp [h5]
    simp [finalBuild, hnh]
  · intro inc c u v hga hstale hidle hsyn hr7 hpu hu hcu hv hne hdup hlen
    rw [reconcile_rule7 inc c hga hstale hidle hsyn hr7]
    have hnh : nextHist inc (some c) = c.history.getD [] := by
      unfold nextHist
      dsimp only
      simp only [Option.some_bind, hpu, hcu]
      rw [if_pos (by simp [strT, hpu, hcu, hu, hne])]
      rw [if_pos (by simp [strT, hcu, hv])]
      simp only [Option.getD_some]
      have hin : (if ((c.history.getD []).getLast? == some v) = true
          then c.history.getD [] else c.history.getD [] ++ [v])
          = c.history.getD [] := by simp [hdup]
      rw [hin]
      rw [if_neg (by omega)]
    simp [finalBuild, hnh]

/-- Concrete instance of the history invariants: a full five-entry history
plus a changed preview stays within capacity, drops the oldest entry and
appends the previous preview. -/
theorem reconcile_history_invariant_witness :
    optHistLen (reconcileFold (some histStoredW) [histIncomingW]) ≤ 5 ∧
    (reconcileTerminalState histIncomingW (some histStoredW)).history =
      some ((histStoredW.history.getD [] ++ ["old.png"]).drop
        ((histStoredW.history.getD []).length + 1 - 5)) :=
  ⟨reconcile_history_invariant.1 (some histStoredW) [histIncomingW] (by decide),
   reconcile_history_invariant.2.1 histIncomingW histStoredW "new.png" "old.png"
     (by decide) (by decide) (by decide) (by decide) (Or.inl (by decide))
     rfl (by decide) rfl (by decide) (by decide) (by decide)⟩

/-! ## C7: exact-case priority of the resolver -/

lemma flattenTree_nil : flattenTree [] = [] := by
  rw [flattenTree.eq_def]

lemma flattenTree_cons (i nm t : String) (vis : Bool) (op : Rat) (co : Box)
    (tr : Option Transform2D) (gp : Option String)
    (ch : Option (List SerializableLayer)) (rest : List SerializableLayer) :
    flattenTree (SerializableLayer.mk i nm t vis op co tr gp ch :: rest)
      = SerializableLayer.mk i nm t vis op co tr gp ch ::
        ((match ch with
          | some cls => flattenTree cls
          | none => []) ++ flattenTree rest) := by
  rw [flattenTree.eq_def]

lemma findLayerDeep_eq_find (ts : List SerializableLayer) (target : String)
    (cs : Bool) :
    findLayerDeep ts target cs
      = (flattenTree ts).find? (fun l => nameMatches l.name target cs) := by
  induction ts, target, cs using findLayerDeep.induct with
  | case1 target cs => rw [findLayerDeep.eq_def, flattenTree_nil]; rfl
  | case2 i nm t vis op co tr gp ch rest target cs hmatch =>
    rw [findLayerDeep.eq_def, flattenTree_cons]
    rw [List.find?_cons_of_pos _ (by simpa using hmatch)]
    simp [hmatch]
  | case3 i nm t vis op co tr gp ch rest target cs hmatch fc f heq ih =>
    rw [findLayerDeep.eq_def, flattenTree_cons]
    rw [List.find?_cons_of_neg _ (by simpa using hmatch)]
    rw [List.find?_append]
    cases ch with
    | none =>
      have heq2 : (none : Option SerializableLayer) = some f := heq
      exact absurd heq2 (by simp)
    | some cls =>
      have heq2 : (if h : cls.length > 0 then findLayerDeep cls target cs
          else none) = some f := heq
      dsimp only at ih ⊢
      rw [if_neg hmatch]
      by_cases hlen : cls.length > 0
      · rw [dif_pos hlen] at heq2
        rw [if_pos hlen, heq2, ← ih, heq2]
        rfl
      · rw [dif_neg hlen] at heq2
        exact absurd heq2 (by simp)
  | case4 i nm t vis op co tr gp ch rest target cs hmatch fc hnone ihc ihr =>
    rw [findLayerDeep.eq_def, flattenTree_cons]
    rw [List.find?_cons_of_neg _ (by simpa using hmatch)]
    rw [List.find?_append]
    cases ch with
    | none =>
      dsimp only
      rw [if_neg hmatch, ihr]
      rfl
    | some cls =>
      have hnone2 : (if h : cls.length > 0 then findLayerDeep cls target cs
          else none) = none := hnone
      dsimp only at ihc ⊢
      rw [if_neg hmatch]
      by_cases hlen : cls.length > 0
      · rw [dif_pos hlen] at hnone2
        rw [if_pos hlen, hnone2, ← ihc, hnone2, ihr]
        rfl
      · have hcl : cls = [] := List.length_eq_zero.mp (by omega)
        subst hcl
        rw [if_neg hlen, flattenTree_nil, ihr]
        rfl

/-- C7 counterexample: the tree consisting of a single layer whose name is the
empty string contains a node whose name exactly equals the stripped requested
name of the request consisting of two exclamation marks (both are empty), yet
the resolver answers NO_NAME with no layer instead of returning that node. -/
theorem resolveLayer_counterexample :
    (flattenTree [emptyNameLayer]).find?
        (fun l => l.name == cleanTargetName "!!") = some emptyNameLayer ∧
    (resolveLayer "!!" (some [emptyNameLayer])).status = "NO_NAME" ∧
    (resolveLayer "!!" (some [emptyNameLayer])).layer = none := by
  have hf : flattenTree [emptyNameLayer] = [emptyNameLayer] := by
    simp [emptyNameLayer, flattenTree_cons, flattenTree_nil]
  refine ⟨?_, rfl, rfl⟩
  rw [hf]
  rfl

/-- C7 amended: for every tree containing at least one node whose name exactly
equals the nonempty stripped requested name, resolveLayer returns the first
such node in depth-first pre-order with status RESOLVED, or EMPTY_GROUP when
that node has no children, and never CASE_MISMATCH, even when a
case-insensitive match occurs earlier in traversal order. -/
theorem resolveLayer_exact_priority (tname : String)
    (tree : List SerializableLayer) (m : SerializableLayer)
    (hclean : cleanTargetName tname ≠ "")
    (hfind : (flattenTree tree).find?
        (fun l => l.name == cleanTargetName tname) = some m) :
    (resolveLayer tname (some tree)).layer = some m ∧
    (resolveLayer tname (some tree)).status =
      (if (m.children.getD []).length = 0 then "EMPTY_GROUP" else "RESOLVED") := by
  have htname : ¬ tname = "" := fun h => hclean (by rw [h]; decide)
  have hfd : findLayerDeep tree (cleanTargetName tname) true = some m := by
    have hpred : (fun l : SerializableLayer =>
        nameMatches l.name (cleanTargetName tname) true)
        = (fun l => l.name == cleanTargetName tname) := by
      funext l
      simp [nameMatches]
    rw [findLayerDeep_eq_find, hpred, hfind]
  constructor
  · by_cases hz : (m.children.getD []).length = 0 <;>
      simp [resolveLayer, htname, hclean, hfd, hz]
  · by_cases hz : (m.children.getD []).length = 0 <;>
      simp [resolveLayer, htname, hclean, hfd, hz]

/-- Concrete instance of the amended resolver priority: the request with a
procedural marker run resolves the exact-case SYMBOLS group, nested behind an
earlier case-insensitive match, with status RESOLVED. -/
theorem resolveLayer_exact_priority_witness :
    (resolveLayer "!!SYMBOLS" (some [wrapperLayer])).layer = some symbolsUpper ∧
    (resolveLayer "!!SYMBOLS" (some [wrapperLayer])).status =
      (if (symbolsUpper.children.getD []).length = 0 then "EMPTY_GROUP"
       else "RESOLVED") :=
  resolveLayer_exact_priority "!!SYMBOLS" [wrapperLayer] symbolsUpper
    (by decide)
    (by
      have hf : flattenTree [wrapperLayer]
          = [wrapperLayer, symbolsMixed, artLayer, symbolsUpper, artLayer] := by
        simp [wrapperLayer, symbolsMixed, symbolsUpper, artLayer,
          flattenTree_cons, flattenTree_nil]
      rw [hf]
      rfl)

/-! ## C8: vertical clamp of the layout transform -/

lemma transformLayers_y_bound (sR tR : Box) (sc aX aY : Rat)
    (strat : Option LayoutStrategy) (hh : 0 ≤ tR.h)
    (ls : List SerializableLayer) (pdx pdy : Rat) :
    ∀ l ∈ flattenTree (transformLayers sR tR sc aX aY strat ls pdx pdy),
      tR.y - tR.h * MAX_BOUNDARY_VIOLATION_PERCENT ≤ l.coords.y ∧
      l.coords.y ≤ tR.y + tR.h + tR.h * MAX_BOUNDARY_VIOLATION_PERCENT := by
  induction ls, pdx, pdy using transformLayers.induct sR tR sc aX aY strat with
  | case1 pdx pdy =>
    intro l hl
    rw [transformLayers.eq_def] at hl
    simp [flattenTree_nil] at hl
  | case2 i nm t vis op co tr gp ch rest pdx pdy ihc ihr =>
    intro l hl
    rw [transformLayers.eq_def] at hl
    dsimp only at hl
    rw [flattenTree_cons] at hl
    simp only [List.mem_cons, List.mem_append] at hl
    have hb : 0 ≤ tR.h * MAX_BOUNDARY_VIOLATION_PERCENT :=
      mul_nonneg hh (by norm_num [MAX_BOUNDARY_VIOLATION_PERCENT])
    rcases hl with hl | hl | hl
    · subst hl
      refine ⟨?_, ?_⟩
      · simpa only [SerializableLayer.coords_mk] using
          le_max_left (tR.y - tR.h * MAX_BOUNDARY_VIOLATION_PERCENT) _
      · simp only [SerializableLayer.coords_mk]
        refine max_le (by linarith) (min_le_right _ _)
    · cases ch with
      | some cls =>
        dsimp only at hl ihc
        exact ihc l hl
      | none =>
        dsimp only at hl
        simp at hl
    · exact ihr l hl

/-- C8: every layer produced by the layout transform, at any nesting depth,
has its vertical position clamped so that it bleeds past the target box by at
most the fixed fraction of the box height on either side; concretely, with the
pipeline placement for a 50-square source into a 100-square target (scale two,
anchors zero) and the constant one tenth, a layer computed at thirty units
above the target is clamped to ten units above it. -/
theorem transformLayers_boundary_clamp :
    (∀ (sR tR : Box) (sc aX aY : Rat) (strat : Option LayoutStrategy)
        (ls : List SerializableLayer) (pdx pdy : Rat), 0 ≤ tR.h →
        ∀ l ∈ flattenTree (transformLayers sR tR sc aX aY strat ls pdx pdy),
          tR.y - tR.h * MAX_BOUNDARY_VIOLATION_PERCENT ≤ l.coords.y ∧
          l.coords.y ≤ tR.y + tR.h + tR.h * MAX_BOUNDARY_VIOLATION_PERCENT) ∧
    computePlacement srcBox tgtBox none = (2, 0, 0) ∧
    (transformLayers srcBox tgtBox 2 0 0 none [clampLayer] 0 0).head?.map
        (fun l => l.coords.y) = some (-10) := by
  refine ⟨fun sR tR sc aX aY strat ls pdx pdy hh =>
    transformLayers_y_bound sR tR sc aX aY strat hh ls pdx pdy, ?_, ?_⟩
  · norm_num [computePlacement, srcBox, tgtBox, min_def]
  · rw [transformLayers.eq_def]
    norm_num [clampLayer, srcBox, tgtBox, MAX_BOUNDARY_VIOLATION_PERCENT,
      min_def, max_def]

/-- Concrete instance of the clamp bounds at the scenario input. -/
theorem transformLayers_boundary_clamp_witness :
    (0 : Rat) ≤ tgtBox.h ∧
    ∀ l ∈ flattenTree (transformLayers srcBox tgtBox 2 0 0 none [clampLayer] 0 0),
      tgtBox.y - tgtBox.h * MAX_BOUNDARY_VIOLATION_PERCENT ≤ l.coords.y ∧
      l.coords.y ≤ tgtBox.y + tgtBox.h + tgtBox.h * MAX_BOUNDARY_VIOLATION_PERCENT :=
  ⟨by norm_num [tgtBox],
   transformLayers_boundary_clamp.1 srcBox tgtBox 2 0 0 none [clampLayer] 0 0
     (by norm_num [tgtBox])⟩

/-! ## C6: idempotence of reconciliation -/

lemma jsOrStr_absorb (a : String) (b : Option String) :
    jsOrStr a (some (jsOrStr a b)) = jsOrStr a b := by
  by_cases h : a = "" <;> simp [jsOrStr, h]

lemma idleRes_gid (inc : TransformedPayload) :
    (idleRes inc).generationId = inc.generationId := rfl

lemma synthRes_gid (inc : TransformedPayload) (cur : Option TransformedPayload) :
    (synthRes inc cur).generationId = cur.bind (·.generationId) := rfl

lemma geomPreserve_gid (inc c : TransformedPayload) :
    (geomPreserve inc c).generationId = c.generationId := rfl

lemma finalBuild_gid (inc : TransformedPayload) (cur : Option TransformedPayload) :
    (finalBuild inc cur).generationId
      = jsOrN inc.generationId (cur.bind (·.generationId)) := rfl

lemma staleFor_gid_eq (inc a b : TransformedPayload)
    (h : a.generationId = b.generationId) : staleFor inc a = staleFor inc b := by
  simp [staleFor, h]

lemma staleFor_self_gid (inc r : TransformedPayload)
    (h : r.generationId = inc.generationId) : staleFor inc r = false := by
  simp [staleFor, h, lt_irrefl]

lemma staleFor_synthRes (inc : TransformedPayload)
    (cur : Option TransformedPayload)
    (hstale : ∀ c, cur = some c → staleFor inc c = false) :
    staleFor inc (synthRes inc cur) = false := by
  cases cur with
  | none => simp [staleFor, synthRes_gid]
  | some c =>
    rw [staleFor_gid_eq inc _ c (by simp [synthRes_gid])]
    exact hstale c rfl

lemma staleFor_finalBuild (inc : TransformedPayload)
    (cur : Option TransformedPayload) :
    staleFor inc (finalBuild inc cur) = false := by
  by_cases hni : natT inc.generationId = true
  · apply staleFor_self_gid
    rw [finalBuild_gid]
    simp [jsOrN, hni]
  · have hni2 : natT inc.generationId = false := by simpa using hni
    simp [staleFor, hni2]

lemma rule6_second_false (inc : TransformedPayload)
    (cur : Option TransformedPayload)
    (hgm : ∀ c, cur = some c →
      (!natT inc.generationId && natT c.generationId) = false) :
    (!natT inc.generationId && natT (finalBuild inc cur).generationId)
      = false := by
  by_cases hni : natT inc.generationId = true
  · simp [hni]
  · have hni2 : natT inc.generationId = false := by simpa using hni
    rw [finalBuild_gid]
    cases cur with
    | none => simp [jsOrN, hni2]
    | some c =>
      have hc := hgm c rfl
      simp [hni2] at hc
      simp [jsOrN, hni2, hc]

lemma synthRes_idem (inc : TransformedPayload) (cur : Option TransformedPayload) :
    synthRes inc (some (synthRes inc cur)) = synthRes inc cur := by
  ext1 <;> simp [synthRes, jsOrS_absorb, jsOrO_absorb, jsOrStr_absorb]

lemma geomPreserve_idem (inc c : TransformedPayload) :
    geomPreserve inc (geomPreserve inc c) = geomPreserve inc c := by
  ext1 <;> simp [geomPreserve, jsOrS_left_absorb]

lemma nextHist_finalBuild (inc : TransformedPayload)
    (cur : Option TransformedPayload) :
    nextHist inc (some (finalBuild inc cur)) = nextHist inc cur := by
  simp [nextHist, finalBuild]

lemma confirmFlag_finalBuild (inc : TransformedPayload)
    (cur : Option TransformedPayload) :
    confirmFlag inc (some (finalBuild inc cur)) = confirmFlag inc cur := by
  cases hic : inc.isConfirmed with
  | some b => simp [confirmFlag, hic]
  | none =>
    by_cases hit : boolT inc.isTransient = true
    · simp [confirmFlag, hic, hit]
    · have hit2 : boolT inc.isTransient = false := by simpa using hit
      simp [confirmFlag, hic, hit2, finalBuild]

lemma finalBuild_history (inc : TransformedPayload)
    (cur : Option TransformedPayload) :
    (finalBuild inc cur).history = some (nextHist inc cur) := rfl

lemma finalBuild_ai (inc : TransformedPayload) (cur : Option TransformedPayload) :
    (finalBuild inc cur).activeHistoryIndex
      = some (inc.activeHistoryIndex.getD (nextHist inc cur).length) := rfl

lemma finalBuild_ic (inc : TransformedPayload) (cur : Option TransformedPayload) :
    (finalBuild inc cur).isConfirmed = some (confirmFlag inc cur) := rfl

lemma finalBuild_sr (inc : TransformedPayload) (cur : Option TransformedPayload) :
    (finalBuild inc cur).sourceReference
      = jsOrS inc.sourceReference (cur.bind (·.sourceReference)) := rfl

lemma finalBuild_ga (inc : TransformedPayload) (cur : Option TransformedPayload) :
    (finalBuild inc cur).generationAllowed = some true := rfl

lemma finalBuild_status (inc : TransformedPayload)
    (cur : Option TransformedPayload) :
    (finalBuild inc cur).status = inc.status := rfl

lemma finalBuild_sourceNodeId (inc : TransformedPayload)
    (cur : Option TransformedPayload) :
    (finalBuild inc cur).sourceNodeId = inc.sourceNodeId := rfl

lemma finalBuild_sourceContainer (inc : TransformedPayload)
    (cur : Option TransformedPayload) :
    (finalBuild inc cur).sourceContainer = inc.sourceContainer := rfl

lemma finalBuild_targetContainer (inc : TransformedPayload)
    (cur : Option TransformedPayload) :
    (finalBuild inc cur).targetContainer = inc.targetContainer := rfl

lemma finalBuild_layers (inc : TransformedPayload)
    (cur : Option TransformedPayload) :
    (finalBuild inc cur).layers = inc.layers := rfl

lemma finalBuild_scaleFactor (inc : TransformedPayload)
    (cur : Option TransformedPayload) :
    (finalBuild inc cur).scaleFactor = inc.scaleFactor := rfl

lemma finalBuild_metrics (inc : TransformedPayload)
    (cur : Option TransformedPayload) :
    (finalBuild inc cur).metrics = inc.metrics := rfl

lemma finalBuild_requiresGeneration (inc : TransformedPayload)
    (cur : Option TransformedPayload) :
    (finalBuild inc cur).requiresGeneration = inc.requiresGeneration := rfl

lemma finalBuild_previewUrl (inc : TransformedPayload)
    (cur : Option TransformedPayload) :
    (finalBuild inc cur).previewUrl = inc.previewUrl := rfl

lemma finalBuild_isTransient (inc : TransformedPayload)
    (cur : Option TransformedPayload) :
    (finalBuild inc cur).isTransient = inc.isTransient := rfl

lemma finalBuild_isSynthesizing (inc : TransformedPayload)
    (cur : Option TransformedPayload) :
    (finalBuild inc cur).isSynthesizing = inc.isSynthesizing := rfl

lemma finalBuild_latestDraftUrl (inc : TransformedPayload)
    (cur : Option TransformedPayload) :
    (finalBuild inc cur).latestDraftUrl = inc.latestDraftUrl := rfl

lemma finalBuild_idem (inc : TransformedPayload) (cur : Option TransformedPayload) :
    finalBuild inc (some (finalBuild inc cur)) = finalBuild inc cur := by
  have hnh := nextHist_finalBuild inc cur
  have hcf := confirmFlag_finalBuild inc cur
  ext1 <;>
    simp only [finalBuild_history, finalBuild_ai, finalBuild_ic, finalBuild_sr,
      finalBuild_ga, finalBuild_status, finalBuild_sourceNodeId,
      finalBuild_sourceContainer, finalBuild_targetContainer,
      finalBuild_layers, finalBuild_scaleFactor, finalBuild_metrics,
      finalBuild_requiresGeneration, finalBuild_previewUrl,
      finalBuild_isTransient, finalBuild_isSynthesizing,
      finalBuild_latestDraftUrl, finalBuild_gid, Option.some_bind,
      hnh, hcf, jsOrS_absorb, jsOrN_absorb]

lemma postStale_idem (inc : TransformedPayload) (cur : Option TransformedPayload)
    (hga : ¬ inc.generationAllowed = some false)
    (hstale : ∀ c, cur = some c → staleFor inc c = false) :
    reconcileTerminalState inc (some (postStale inc cur)) = postStale inc cur := by
  by_cases hidle : inc.status = "idle"
  · have h2 : postStale inc cur = idleRes inc := by simp [postStale, hidle]
    rw [h2]
    have hs : staleFor inc (idleRes inc) = false :=
      staleFor_self_gid inc _ (idleRes_gid inc)
    simp [reconcileTerminalState, hga, hs, postStale, hidle]
  · by_cases hsyn : boolT inc.isSynthesizing = true
    · have h2 : postStale inc cur = synthRes inc cur := by
        simp [postStale, hidle, hsyn]
      rw [h2]
      have hs := staleFor_synthRes inc cur hstale
      calc reconcileTerminalState inc (some (synthRes inc cur))
          = postStale inc (some (synthRes inc cur)) := by
            simp [reconcileTerminalState, hga, hs]
        _ = synthRes inc (some (synthRes inc cur)) := by
            simp [postStale, hidle, hsyn]
        _ = synthRes inc cur := synthRes_idem inc cur
    · have hsyn2 : boolT inc.isSynthesizing = false := by simpa using hsyn
      have h2 : postStale inc cur = fillPhase inc cur := by
        simp [postStale, hidle, hsyn2]
      rw [h2]
      cases cur with
      | none =>
        have h3 : fillPhase inc none = finalBuild inc none := by
          simp [fillPhase]
        rw [h3]
        have hs := staleFor_finalBuild inc none
        have hg2 := rule6_second_false inc none (by intro c hc; cases hc)
        calc reconcileTerminalState inc (some (finalBuild inc none))
            = postStale inc (some (finalBuild inc none)) := by
              simp [reconcileTerminalState, hga, hs]
          _ = fillPhase inc (some (finalBuild inc none)) := by
              simp [postStale, hidle, hsyn2]
          _ = finalBuild inc (some (finalBuild inc none)) := by
              simp [fillPhase, hg2]
          _ = finalBuild inc none := finalBuild_idem inc none
      | some c =>
        by_cases hgm : (!natT inc.generationId && natT c.generationId) = true
        · have h3 : fillPhase inc (some c) = geomPreserve inc c := by
            simp [fillPhase, hgm]
          rw [h3]
          have hs : staleFor inc (geomPreserve inc c) = false := by
            rw [staleFor_gid_eq inc _ c (geomPreserve_gid inc c)]
            exact hstale c rfl
          have hgm2 : (!natT inc.generationId
              && natT (geomPreserve inc c).generationId) = true := by
            rw [geomPreserve_gid]
            exact hgm
          calc reconcileTerminalState inc (some (geomPreserve inc c))
              = postStale inc (some (geomPreserve inc c)) := by
                simp [reconcileTerminalState, hga, hs]
            _ = fillPhase inc (some (geomPreserve inc c)) := by
                simp [postStale, hidle, hsyn2]
            _ = geomPreserve inc (geomPreserve inc c) := by
                simp [fillPhase, hgm2]
            _ = geomPreserve inc c := geomPreserve_idem inc c
        · have hgmf : (!natT inc.generationId && natT c.generationId) = false := by
            simpa using hgm
          have h3 : fillPhase inc (some c) = finalBuild inc (some c) := by
            simp [fillPhase, hgmf]
          rw [h3]
          have hs := staleFor_finalBuild inc (some c)
          have hg2 := rule6_second_false inc (some c)
            (by intro d hd; cases hd; exact hgmf)
          calc reconcileTerminalState inc (some (finalBuild inc (some c)))
              = postStale inc (some (finalBuild inc (some c))) := by
                simp [reconcileTerminalState, hga, hs]
            _ = fillPhase inc (some (finalBuild inc (some c))) := by
                simp [postStale, hidle, hsyn2]
            _ = finalBuild inc (some (finalBuild inc (some c))) := by
                simp [fillPhase, hg2]
            _ = finalBuild inc (some c) := finalBuild_idem inc (some c)

/-- C6: reconciliation is idempotent for every incoming candidate and every
stored payload, including none: reconciling the same candidate a second time
against the result of the first reconciliation returns that result unchanged
(in particular no duplicate history entries are appended). -/
theorem reconcile_idempotent (inc : TransformedPayload)
    (cur : Option TransformedPayload) :
    reconcileTerminalState inc (some (reconcileTerminalState inc cur))
      = reconcileTerminalState inc cur := by
  by_cases hga : inc.generationAllowed = some false
  · simp [reconcileTerminalState, hga]
  · cases cur with
    | none =>
      have h1 : reconcileTerminalState inc none = postStale inc none := by
        simp [reconcileTerminalState, hga]
      rw [h1]
      exact postStale_idem inc none hga (by intro c hc; cases hc)
    | some c =>
      by_cases hst : staleFor inc c = true
      · have h1 : reconcileTerminalState inc (some c) = c := by
          simp [reconcileTerminalState, hga, hst]
        simp only [h1]
      · have hstf : staleFor inc c = false := by simpa using hst
        have h1 : reconcileTerminalState inc (some c) = postStale inc (some c) := by
          simp [reconcileTerminalState, hga, hstf]
        rw [h1]
        exact postStale_idem inc (some c) hga (by intro d hd; cases hd; exact hstf)
